import Mathlib

/-!
# Verification of the `cssSelectorBuilder` of `05-objects-tasks.js`

A shallow embedding of the CSS selector builder. A selector is the record of
optional fragment fields the JavaScript object carries (`tag`, `myId`,
`classes`, `attribute`, `pseudoClasses`, `pseudoElem`, `combination`); an
absent or `undefined` property is `none`. Each method of the builder becomes
a function from the receiver's state and the argument to a `CallOut`: the
state of the receiver after the call together with either the returned
selector or the thrown error message (JavaScript `throw new Error(msg)`
becomes `Except.error msg`). JavaScript truthiness of a string-valued
property (`undefined` and `''` are falsy) is `truthy`; a `!== undefined`
check is `Option.isSome`; a defined array is always truthy, so array-valued
properties are tested with `Option.isSome`.
-/

namespace CssBuilder

/-- JS truthiness of a possibly-undefined string property: defined and
non-empty. -/
def truthy : Option String → Bool
  | some s => s ≠ ""
  | none => false

/-- The state of one selector object: the data properties the JavaScript
code stores on it. `none` is an absent/`undefined` property. -/
structure Selector where
  tag : Option String
  myId : Option String
  classes : Option (List String)
  attrib : Option String
  pseudoClasses : Option (List String)
  pseudoElem : Option String
  combination : Option String
deriving DecidableEq, Repr

/-- A freshly created object (`{}` with the builder as prototype): no own
data properties. -/
def emptySel : Selector := ⟨none, none, none, none, none, none, none⟩

/-- The message of the duplicate-fragment error thrown by `element`, `id`
and `pseudoElement`. -/
def dupMsg : String :=
  "Element, id and pseudo-element should not occur more then one time inside the selector"

/-- The message of the order-violation error. -/
def orderMsg : String :=
  "Selector parts should be arranged in the following order: element, id, class, attribute, pseudo-class, pseudo-element"

/-- Outcome of one method call: the receiver's state after the call, and
either the selector the method returned or the error message it threw. -/
structure CallOut where
  post : Selector
  out : Except String Selector
deriving Repr

/-- `element(value)`: throws the duplicate error if `this.tag` is truthy,
then the order error if `this.myId` is truthy (before the fresh object's
`tag` is assigned, so the receiver is unchanged), otherwise returns a fresh
object carrying only `tag = value`. -/
def element (s : Selector) (v : String) : CallOut :=
  if truthy s.tag then ⟨s, .error dupMsg⟩
  else if truthy s.myId then ⟨s, .error orderMsg⟩
  else ⟨s, .ok { emptySel with tag := some v }⟩

/-- `id(value)`: order error if `this.pseudoElem !== undefined`, duplicate
error if `this.myId` is truthy, order error if `this.classes !== undefined`
or `this.pseudoClasses !== undefined`; then mutates and returns `this` when
`this.tag` is truthy, else returns a fresh object with only `myId`. -/
def id (s : Selector) (v : String) : CallOut :=
  if s.pseudoElem.isSome then ⟨s, .error orderMsg⟩
  else if truthy s.myId then ⟨s, .error dupMsg⟩
  else if s.classes.isSome then ⟨s, .error orderMsg⟩
  else if s.pseudoClasses.isSome then ⟨s, .error orderMsg⟩
  else if truthy s.tag then
    let s' := { s with myId := some v }
    ⟨s', .ok s'⟩
  else ⟨s, .ok { emptySel with myId := some v }⟩

/-- `class(value)` (`cls`; `class` is a Lean keyword): order error if
`this.attrib` is truthy; otherwise creates the class list if absent,
pushes `value`, sets `this.pseudoClasses = undefined`, and returns `this`. -/
def cls (s : Selector) (v : String) : CallOut :=
  if truthy s.attrib then ⟨s, .error orderMsg⟩
  else
    let s' := { s with classes := some (s.classes.getD [] ++ [v]),
                       pseudoClasses := none }
    ⟨s', .ok s'⟩

/-- `attr(value)`: order error if `this.pseudoClasses !== undefined`;
otherwise overwrites `this.attrib` with the bracketed form, sets
`pseudoClasses` and `pseudoElem` to `undefined`, and returns `this`. -/
def attr (s : Selector) (v : String) : CallOut :=
  if s.pseudoClasses.isSome then ⟨s, .error orderMsg⟩
  else
    let s' := { s with attrib := some ("[" ++ v ++ "]"),
                       pseudoClasses := none,
                       pseudoElem := none }
    ⟨s', .ok s'⟩

/-- `pseudoClass(value)`: if `this.pseudoElem` is truthy, first sets
`this.pseudoElem = undefined` and then throws the order error (the receiver
keeps that mutation); otherwise pushes `':' + value` onto the pseudo-class
list and returns `this`. -/
def pseudoClass (s : Selector) (v : String) : CallOut :=
  if truthy s.pseudoElem then
    ⟨{ s with pseudoElem := none }, .error orderMsg⟩
  else
    let s' :=
      { s with pseudoClasses := some (s.pseudoClasses.getD [] ++ [":" ++ v]) }
    ⟨s', .ok s'⟩

/-- `pseudoElement(value)`: duplicate error if `this.pseudoElem` is truthy;
otherwise stores `'::' + value` and returns `this`. -/
def pseudoElement (s : Selector) (v : String) : CallOut :=
  if truthy s.pseudoElem then ⟨s, .error dupMsg⟩
  else
    let s' := { s with pseudoElem := some ("::" ++ v) }
    ⟨s', .ok s'⟩

/-- `Array.prototype.join(sep)`: empty array gives `''`, otherwise the
elements interleaved with `sep`. -/
def jsJoin (sep : String) : List String → String
  | [] => ""
  | a :: as => as.foldl (fun acc x => acc ++ sep ++ x) a

/-- The string built by `stringify`: each truthy string property appended in
source order (`#` before the id, `.` before the joined classes), each array
property joined and appended when defined (a defined JS array is truthy). -/
def renderStr (s : Selector) : String :=
  let str := ""
  let str := if truthy s.tag then str ++ s.tag.getD "" else str
  let str := if truthy s.myId then str ++ "#" ++ s.myId.getD "" else str
  let str := if s.classes.isSome then str ++ "." ++ jsJoin "." (s.classes.getD []) else str
  let str := if truthy s.attrib then str ++ s.attrib.getD "" else str
  let str := if s.pseudoClasses.isSome then str ++ jsJoin "" (s.pseudoClasses.getD []) else str
  let str := if truthy s.pseudoElem then str ++ s.pseudoElem.getD "" else str
  let str := if truthy s.combination then str ++ s.combination.getD "" else str
  str

/-- `stringify()`: returns the rendered string and leaves the receiver with
every data property set to `undefined`. -/
def stringify (s : Selector) : String × Selector := (renderStr s, emptySel)

/-- `combine(selector1, combinator, selector2)`: stringifies both children
(resetting them) and returns a fresh object holding only the combination
string, together with the two children's post-states. -/
def combine (l : Selector) (c : String) (r : Selector) :
    Selector × Selector × Selector :=
  let (str1, l') := stringify l
  let (str2, r') := stringify r
  ({ emptySel with combination := some (str1 ++ " " ++ c ++ " " ++ str2) },
   l', r')

/-- `stringify` as a fallible call: its body contains no `throw`, so the
embedding always returns `ok`. -/
def stringifyE (s : Selector) : Except String (String × Selector) :=
  .ok (stringify s)

/-- `combine` as a fallible call: its only callees are the two `stringify`
calls, threaded monadically as the source does. -/
def combineE (l : Selector) (c : String) (r : Selector) :
    Except String (Selector × Selector × Selector) := do
  let (str1, l') ← stringifyE l
  let (str2, r') ← stringifyE r
  .ok ({ emptySel with combination := some (str1 ++ " " ++ c ++ " " ++ str2) },
       l', r')

/-- Feed the selector produced by a previous call into the next method of a
chain, propagating a thrown error. -/
def step (f : Selector → String → CallOut) (v : String)
    (e : Except String Selector) : Except String Selector :=
  match e with
  | .ok s => (f s v).out
  | .error m => .error m

/-- Plain left-to-right concatenation of a list of strings. -/
def specJoin : List String → String
  | [] => ""
  | a :: as => a ++ specJoin as

/-- The rendering as the specification words it: concatenation, in fixed
order, of the element, `#` followed by the id when one is present, the
classes each prefixed by `.`, the (stored already bracketed) attribute, the
(stored already `:`-prefixed) pseudo-classes in append order, the (stored
already `::`-prefixed) pseudo-element, and the combination string. -/
def specRender (s : Selector) : String :=
  s.tag.getD ""
  ++ (if s.myId.isSome then "#" ++ s.myId.getD "" else "")
  ++ specJoin ((s.classes.getD []).map (fun c => "." ++ c))
  ++ s.attrib.getD ""
  ++ specJoin (s.pseudoClasses.getD [])
  ++ s.pseudoElem.getD ""
  ++ s.combination.getD ""

/-! ## Helper lemmas -/

lemma dup_ne_order : dupMsg ≠ orderMsg := by decide

lemma mid_space_ne_empty (a b c : String) : a ++ " " ++ b ++ " " ++ c ≠ "" := by
  intro h
  have h2 := congrArg String.length h
  simp only [String.length_append] at h2
  have hs : (" " : String).length = 1 := rfl
  have he : ("" : String).length = 0 := rfl
  rw [hs, he] at h2
  omega

lemma renderStr_comb_only (x : String) (hx : x ≠ "") :
    renderStr { emptySel with combination := some x } = x := by
  simp [renderStr, emptySel, truthy, hx]

/-- Pull the appended piece of one accumulation stage out of the `if`. -/
lemma acc_if (b : Bool) (s x : String) :
    (if b then s ++ x else s) = s ++ (if b then x else "") := by
  cases b <;> simp

/-- Same, for a stage that appends a prefix and then the piece. -/
lemma acc_if_pre (b : Bool) (s p x : String) :
    (if b then s ++ p ++ x else s) = s ++ (if b then p ++ x else "") := by
  cases b <;> simp [String.append_assoc]

lemma foldl_sep_spec (sep : String) (as : List String) (acc : String) :
    as.foldl (fun b x => b ++ sep ++ x) acc
      = acc ++ specJoin (as.map (fun c => sep ++ c)) := by
  induction as generalizing acc with
  | nil => simp [specJoin]
  | cons a as ih =>
    rw [List.foldl_cons, ih]
    simp only [List.map_cons, specJoin, String.append_assoc]

lemma jsJoin_dot (cs : List String) (h : cs ≠ []) :
    "." ++ jsJoin "." cs = specJoin (cs.map (fun c => "." ++ c)) := by
  cases cs with
  | nil => exact absurd rfl h
  | cons a as =>
    show "." ++ List.foldl (fun b x => b ++ "." ++ x) a as = _
    rw [foldl_sep_spec]
    simp only [List.map_cons, specJoin, String.append_assoc]

lemma jsJoin_empty_sep (ps : List String) : jsJoin "" ps = specJoin ps := by
  cases ps with
  | nil => rfl
  | cons a as =>
    show List.foldl (fun b x => b ++ "" ++ x) a as = _
    rw [foldl_sep_spec]
    simp [String.empty_append, specJoin]

/-- A stage guarded by truthiness renders the same as the plain present
value: an empty stored string contributes nothing either way. -/
lemma part_plain (o : Option String) :
    (if truthy o then o.getD "" else "") = o.getD "" := by
  rcases o with _ | t
  · rfl
  · by_cases h : t = "" <;> simp [truthy, h]

lemma part_id (o : Option String) (h : o ≠ some "") :
    (if truthy o then "#" ++ o.getD "" else "")
      = (if o.isSome then "#" ++ o.getD "" else "") := by
  rcases o with _ | i
  · rfl
  · have hi : i ≠ "" := fun he => h (by rw [he])
    simp [truthy, hi]

lemma part_classes (o : Option (List String)) (h : o ≠ some []) :
    (if o.isSome then "." ++ jsJoin "." (o.getD []) else "")
      = specJoin ((o.getD []).map (fun c => "." ++ c)) := by
  rcases o with _ | cs
  · rfl
  · have hc : cs ≠ [] := fun he => h (by rw [he])
    simp [jsJoin_dot cs hc]

lemma part_pcs (o : Option (List String)) :
    (if o.isSome then jsJoin "" (o.getD []) else "") = specJoin (o.getD []) := by
  rcases o with _ | ps
  · rfl
  · simp [jsJoin_empty_sep]

/-- The source rendering agrees with the specification's fixed-order
concatenation whenever the stored id is not the empty string and the class
list, when defined, is not the empty array (states no append sequence
produces). -/
lemma renderStr_eq_specRender (s : Selector) (h1 : s.myId ≠ some "")
    (h2 : s.classes ≠ some []) : renderStr s = specRender s := by
  unfold renderStr specRender
  simp only [acc_if_pre, acc_if, String.empty_append]
  rw [part_plain, part_id _ h1, part_classes _ h2, part_pcs,
    part_plain, part_plain, part_plain]

/-! ## Claim theorems -/

/-- C1, counterexample: `pseudoElement('first-line')` on a fresh builder
yields a selector carrying a pseudo-element fragment (a later grammar order
than class), yet `class('c')` on it does not raise: it is accepted, appends
the class, and keeps the pseudo-element. -/
theorem C1_counterexample :
    (pseudoElement emptySel "first-line").out
        = .ok ⟨none, none, none, none, none, some "::first-line", none⟩
    ∧ truthy (Selector.pseudoElem
        ⟨none, none, none, none, none, some "::first-line", none⟩) = true
    ∧ (cls ⟨none, none, none, none, none, some "::first-line", none⟩ "c").out
        = .ok ⟨none, none, some ["c"], none, none, some "::first-line", none⟩ :=
  ⟨rfl, rfl, rfl⟩

/-- C1, amended: each append method raises `OrderViolation` exactly under
its own specific check — `element` iff an id is truthy-present (no check for
class/attribute/pseudo fragments), `id` iff a pseudo-element is defined or
(absent a truthy id, which raises the duplicate error first) classes or
pseudo-classes are defined (no check for the attribute), `class` iff the
attribute is truthy, `attr` iff pseudo-classes are defined, `pseudoClass`
iff the pseudo-element is truthy, and `pseudoElement` never; every other
out-of-order append is accepted without error. -/
theorem C1_order_violation_exact (s : Selector) (v : String) :
    ((element s v).out = .error orderMsg
      ↔ truthy s.tag = false ∧ truthy s.myId = true)
    ∧ ((id s v).out = .error orderMsg
      ↔ s.pseudoElem.isSome = true
        ∨ truthy s.myId = false
          ∧ (s.classes.isSome = true ∨ s.pseudoClasses.isSome = true))
    ∧ ((cls s v).out = .error orderMsg ↔ truthy s.attrib = true)
    ∧ ((attr s v).out = .error orderMsg ↔ s.pseudoClasses.isSome = true)
    ∧ ((pseudoClass s v).out = .error orderMsg ↔ truthy s.pseudoElem = true)
    ∧ (pseudoElement s v).out ≠ .error orderMsg := by
  refine ⟨?_, ?_, ?_, ?_, ?_, ?_⟩
  · unfold element
    by_cases h1 : truthy s.tag <;> by_cases h2 : truthy s.myId <;>
      simp [h1, h2, dup_ne_order]
  · unfold id
    by_cases h1 : s.pseudoElem.isSome <;> by_cases h2 : truthy s.myId <;>
      by_cases h3 : s.classes.isSome <;> by_cases h4 : s.pseudoClasses.isSome <;>
      by_cases h5 : truthy s.tag <;> simp [h1, h2, h3, h4, h5, dup_ne_order]
  · unfold cls
    by_cases h : truthy s.attrib <;> simp [h]
  · unfold attr
    by_cases h : s.pseudoClasses.isSome <;> simp [h]
  · unfold pseudoClass
    by_cases h : truthy s.pseudoElem <;> simp [h]
  · unfold pseudoElement
    by_cases h : truthy s.pseudoElem <;> simp [h, dup_ne_order]

/-- C2: `stringify` renders element, `#`+id, `.`-prefixed classes, the
bracketed attribute, the `:`-prefixed pseudo-classes in append order and the
`::`-prefixed pseudo-element in that fixed order (for every selector whose
stored id is not the empty string and whose class list, when defined, is
non-empty — the only states appends produce), and the two spec examples
render as stated. -/
theorem C2_stringify_fixed_order :
    (∀ s : Selector, s.myId ≠ some "" → s.classes ≠ some [] →
      (stringify s).1 = specRender s)
    ∧ (step cls "editable" (step cls "container" ((id emptySel "main").out))).map
        (fun s => (stringify s).1) = .ok "#main.container.editable"
    ∧ (step pseudoClass "focus"
        (step attr "href$=\".png\"" ((element emptySel "a").out))).map
        (fun s => (stringify s).1) = .ok "a[href$=\".png\"]:focus" :=
  ⟨fun s h1 h2 => renderStr_eq_specRender s h1 h2, rfl, rfl⟩

/-- C2, witness: the refinement applied to one concrete selector. -/
theorem C2_stringify_fixed_order_witness :
    ((⟨some "a", some "m", some ["x", "y"], some "[k]", some [":h"],
        some "::b", none⟩ : Selector).myId ≠ some "")
    ∧ (stringify ⟨some "a", some "m", some ["x", "y"], some "[k]", some [":h"],
        some "::b", none⟩).1
      = specRender ⟨some "a", some "m", some ["x", "y"], some "[k]", some [":h"],
        some "::b", none⟩ :=
  ⟨by decide, C2_stringify_fixed_order.1 _ (by decide) (by decide)⟩

/-- C3, counterexample: `id('x').pseudoElement('p')` yields a selector
whose id fragment is set; a second `id` call on it raises the order error,
not the duplicate error. -/
theorem C3_counterexample :
    (step pseudoElement "p" ((id emptySel "x").out))
        = .ok ⟨none, some "x", none, none, none, some "::p", none⟩
    ∧ (id ⟨none, some "x", none, none, none, some "::p", none⟩ "y").out
        = .error orderMsg
    ∧ orderMsg ≠ dupMsg :=
  ⟨rfl, rfl, by decide⟩

/-- C3, amended: `element` and `pseudoElement` on a selector whose fragment
is truthy-set always raise the duplicate error; `id` raises it when the id
is truthy-set and no pseudo-element property is defined, but raises the
order error instead when a pseudo-element is also defined. -/
theorem C3_singleton_duplicates (s : Selector) (v : String) :
    (truthy s.tag = true → (element s v).out = .error dupMsg)
    ∧ (truthy s.pseudoElem = true → (pseudoElement s v).out = .error dupMsg)
    ∧ (truthy s.myId = true → s.pseudoElem = none →
        (id s v).out = .error dupMsg)
    ∧ (truthy s.myId = true → s.pseudoElem.isSome = true →
        (id s v).out = .error orderMsg) := by
  refine ⟨fun h => ?_, fun h => ?_, fun h hpe => ?_, fun h hpe => ?_⟩
  · unfold element
    simp [h]
  · unfold pseudoElement
    simp [h]
  · unfold id
    simp [h, hpe]
  · unfold id
    simp [hpe]

/-- C3, witness: the amended claim at concrete selectors — a second
`element` raises the duplicate error, and `id` with a pseudo-element also
present raises the order error. -/
theorem C3_singleton_duplicates_witness :
    (element ⟨some "a", none, none, none, none, none, none⟩ "b").out
        = .error dupMsg
    ∧ (id ⟨none, some "x", none, none, none, some "::q", none⟩ "y").out
        = .error orderMsg :=
  ⟨(C3_singleton_duplicates ⟨some "a", none, none, none, none, none, none⟩
      "b").1 (by decide),
   (C3_singleton_duplicates ⟨none, some "x", none, none, none, some "::q",
      none⟩ "y").2.2.2 (by decide) (by decide)⟩

/-- C4: `stringify` resets every fragment property of the instance, and a
second `stringify` on the reset instance returns the empty string. -/
theorem C4_stringify_resets (s : Selector) :
    (stringify s).2 = emptySel
    ∧ (stringify (stringify s).2).1 = "" :=
  ⟨rfl, rfl⟩

/-- C5: the composite built by `combine` stringifies to the rendering of the
left child, a single space, the combinator token, a single space, and the
rendering of the right child; and `combine(element('div').id('main'), '+',
element('span'))` renders as `div#main + span`. -/
theorem C5_combine_renders (l : Selector) (c : String) (r : Selector) :
    (stringify (combine l c r).1).1
        = (stringify l).1 ++ " " ++ c ++ " " ++ (stringify r).1
    ∧ (step id "main" ((element emptySel "div").out))
        = .ok ⟨some "div", some "main", none, none, none, none, none⟩
    ∧ (element emptySel "span").out
        = .ok ⟨some "span", none, none, none, none, none, none⟩
    ∧ (stringify (combine ⟨some "div", some "main", none, none, none, none, none⟩
        "+" ⟨some "span", none, none, none, none, none, none⟩).1).1
        = "div#main + span" :=
  ⟨renderStr_comb_only _ (mid_space_ne_empty _ _ _), rfl, rfl, rfl⟩

/-- C6: `combine` and `stringify`, whose bodies contain no throw, return
normally on every selector state. -/
theorem C6_combine_stringify_total (s l r : Selector) (c : String) :
    (stringifyE s).isOk = true ∧ (combineE l c r).isOk = true :=
  ⟨rfl, rfl⟩

/-- C7: `combine` consumes its two children — both are reset by the
`stringify` calls it makes, and stringifying either afterwards yields the
empty string. -/
theorem C7_combine_consumes (l : Selector) (c : String) (r : Selector) :
    (combine l c r).2.1 = emptySel
    ∧ (combine l c r).2.2 = emptySel
    ∧ (stringify (combine l c r).2.1).1 = ""
    ∧ (stringify (combine l c r).2.2).1 = "" :=
  ⟨rfl, rfl, rfl, rfl⟩

/-- C8: `pseudoClass` on a selector whose pseudo-element is truthy-set
raises the order error, and on that path the receiver's pseudo-element
property (and nothing else) has been cleared before the throw. -/
theorem C8_pseudoClass_clears_pseudoElem (s : Selector) (v : String)
    (h : truthy s.pseudoElem = true) :
    pseudoClass s v = ⟨{ s with pseudoElem := none }, .error orderMsg⟩ := by
  unfold pseudoClass
  simp [h]

/-- C8, witness: the failed `pseudoClass` call at a concrete selector. -/
theorem C8_pseudoClass_clears_pseudoElem_witness :
    pseudoClass ⟨some "a", none, none, none, none, some "::after", none⟩ "hover"
      = ⟨⟨some "a", none, none, none, none, none, none⟩, .error orderMsg⟩ :=
  C8_pseudoClass_clears_pseudoElem
    ⟨some "a", none, none, none, none, some "::after", none⟩ "hover" (by decide)

/-- C9: `pseudoElement` does no ordering validation — whenever the
pseudo-element property is not truthy-set it succeeds, storing `::`+value on
the receiver, whatever other fragments are present; and it never raises the
order error. -/
theorem C9_pseudoElement_no_order_check (s : Selector) (v : String) :
    (truthy s.pseudoElem = false →
      pseudoElement s v
        = ⟨{ s with pseudoElem := some ("::" ++ v) },
           .ok { s with pseudoElem := some ("::" ++ v) }⟩)
    ∧ (pseudoElement s v).out ≠ .error orderMsg := by
  constructor
  · intro h
    unfold pseudoElement
    simp [h]
  · unfold pseudoElement
    by_cases h : truthy s.pseudoElem <;> simp [h, dup_ne_order]

/-- C9, witness: `pseudoElement` succeeds as the very first fragment call. -/
theorem C9_pseudoElement_no_order_check_witness :
    pseudoElement emptySel "before"
      = ⟨{ emptySel with pseudoElem := some "::before" },
         .ok { emptySel with pseudoElem := some "::before" }⟩ :=
  (C9_pseudoElement_no_order_check emptySel "before").1 (by decide)

/-- C10: presence is truthiness, so an empty string does not count as a set
fragment — `element('')` stores `''`, after which a second `element` call
succeeds without the duplicate error and `stringify` omits the empty tag;
likewise for `id('')`. -/
theorem C10_empty_string_counts_as_unset :
    (element emptySel "").out
        = .ok ⟨some "", none, none, none, none, none, none⟩
    ∧ (∀ v, (element ⟨some "", none, none, none, none, none, none⟩ v).out
        = .ok { emptySel with tag := some v })
    ∧ (stringify ⟨some "", none, none, none, none, none, none⟩).1 = ""
    ∧ (id emptySel "").out
        = .ok ⟨none, some "", none, none, none, none, none⟩
    ∧ (∀ v, (id ⟨none, some "", none, none, none, none, none⟩ v).out
        = .ok { emptySel with myId := some v })
    ∧ (stringify ⟨none, some "", none, none, none, none, none⟩).1 = "" :=
  ⟨rfl, fun _ => rfl, rfl, rfl, fun _ => rfl, rfl⟩

end CssBuilder
